import Mathlib

/-
Shallow embedding of the duit ledger backend (entry repository, CSV
import/export handlers, and entry-list rendering), together with proofs
about the claims of the specification.

Modelling conventions:
* `database/sql` transactions are modelled by `Tx`: a transaction handle
  that can be committed or rolled back once; a second commit/rollback
  returns the `txDone` error, as `database/sql` does.  Every SQL statement
  in the Go code runs with `RunWith(d.db)` (the raw connection, autocommit),
  not with the transaction handle, so in the model every statement applies
  to the `Store` immediately and commit/rollback only toggle the handle.
* `decimal.Decimal` amounts are modelled by `Int`; dates by `Int` with the
  calendar order; auto-increment ids by `nextCategoryId` / `nextEntryId`
  counters in the store.
* The only injected statement failure is the bulk entry insert of
  `SaveEntries` (flag `entryInsertFails`), which is the failure the
  atomicity claim is about; all other statements succeed.
-/

namespace Duit

/-- Entry/category type, from `model.Type` (`Income | Expense | Transfer`). -/
inductive Ty where
  | income
  | expense
  | transfer
deriving DecidableEq, Repr

/-- `Type.IsIncome` from the model package. -/
def Ty.IsIncome (t : Ty) : Bool := t == .income

/-- `Type.IsExpense` from the model package. -/
def Ty.IsExpense (t : Ty) : Bool := t == .expense

/-- `Type.IsTransfer` from the model package. -/
def Ty.IsTransfer (t : Ty) : Bool := t == .transfer

/-- A row of the `category` table / `model.Category`. -/
structure Category where
  id : Int
  accountId : Int
  name : String
  type : Ty
deriving DecidableEq, Repr

/-- A row of the `entry` table (the `category` column is the foreign key id). -/
structure EntryRow where
  id : Int
  accountId : Int
  affectedAccountId : Option Int
  type : Ty
  description : Option String
  amount : Int
  date : Int
  category : Int
deriving DecidableEq, Repr

/-- `model.Entry` as passed to the DAO (category is an optional name). -/
structure Entry where
  id : Int
  accountId : Int
  affectedAccountId : Option Int
  type : Ty
  description : Option String
  category : Option String
  amount : Int
  date : Int
deriving DecidableEq, Repr

/-- A row of the derived `cumulative_amount` projection; its `month` column is
a `YYYY-MM` string, modelled as the pair (year, month). -/
structure CumulativeRow where
  accountId : Int
  year : Int
  month : Int
  amount : Int
deriving DecidableEq, Repr

/-- The backing relational store. -/
structure Store where
  categories : List Category
  entries : List EntryRow
  cumulative : List CumulativeRow
  nextCategoryId : Int
  nextEntryId : Int
deriving DecidableEq, Repr

/-- Error kinds the embedded operations can return. -/
inductive Err where
  | validation (msg : String)
  | notFound
  | txDone
  | insertFailed
deriving DecidableEq, Repr

instance {α : Type} [DecidableEq α] : DecidableEq (Except Err α) := fun a b =>
  match a, b with
  | .ok x, .ok y =>
      if h : x = y then .isTrue (by rw [h]) else .isFalse (by simp [h])
  | .error x, .error y =>
      if h : x = y then .isTrue (by rw [h]) else .isFalse (by simp [h])
  | .ok _, .error _ => .isFalse (by simp)
  | .error _, .ok _ => .isFalse (by simp)

/-- A `database/sql` transaction handle: commit/rollback succeed once, a
second commit or rollback returns `ErrTxDone`. -/
structure Tx where
  done : Bool
deriving DecidableEq, Repr

/-- `db.Begin()`. -/
def Tx.start : Tx := ⟨false⟩

/-- `tx.Commit()`. -/
def Tx.commit (t : Tx) : Tx × Except Err Unit :=
  if t.done then (t, .error .txDone) else (⟨true⟩, .ok ())

/-- `tx.Rollback()`. -/
def Tx.rollback (t : Tx) : Tx × Except Err Unit :=
  if t.done then (t, .error .txDone) else (⟨true⟩, .ok ())

/-- `null.String.ValueOrZero()`. -/
def valueOrZero (o : Option String) : String := o.getD ""

/-- `FindCategoriesByName`: `SELECT ... FROM category WHERE account_id = ?
AND name IN (?)`. -/
def findCategoriesByName (s : Store) (names : List String) (accountId : Int) :
    List Category :=
  s.categories.filter (fun c => c.accountId == accountId && names.contains c.name)

/-- The batched `INSERT INTO category (account_id, name, type) VALUES ...`,
with auto-increment ids. -/
def insertCategoryRows (s : Store) : List Category → Store
  | [] => s
  | c :: cs =>
      insertCategoryRows
        { s with
            categories := s.categories ++
              [{ id := s.nextCategoryId, accountId := c.accountId,
                 name := c.name, type := c.type }],
            nextCategoryId := s.nextCategoryId + 1 } cs

/-- `CreateCategoriesIfNotExist`: begins its own transaction, fetches the
categories with the requested names, inserts those whose (type, name) key is
absent (the insert runs on the raw connection), commits, and re-queries. -/
def createCategoriesIfNotExist (s : Store) (categories : List Category) :
    Store × Except Err (List Category) :=
  match categories with
  | [] => (s, .ok [])
  | c0 :: _ =>
    let accountID := c0.accountId
    let tx := Tx.start
    let categoryNames := categories.map (·.name)
    let existingCategories := findCategoriesByName s categoryNames accountID
    let newCategories := categories.filter
      (fun c => !(existingCategories.any (fun e => e.type == c.type && e.name == c.name)))
    if newCategories.isEmpty then
      (s, .ok existingCategories)
    else
      let s1 := insertCategoryRows s newCategories
      let (_tx1, _) := tx.commit
      (s1, .ok (findCategoriesByName s1 categoryNames accountID))

/-- The lookup of `CreateCategoryIfNotExists`: `SELECT ... FROM category
WHERE account_id = ? AND name = ? LIMIT 1`. -/
def lookupCategory (s : Store) (accountId : Int) (name : String) :
    Option Category :=
  (s.categories.filter
    (fun x => x.accountId == accountId && x.name == name)).head?

/-- `CreateCategoryIfNotExists`: rejects a type that is neither income nor
expense, then looks the category up by `account_id` and `name` (`LIMIT 1`);
if found it is returned, otherwise a fresh row is inserted and returned. -/
def createCategoryIfNotExists (s : Store) (category : Category) :
    Store × Except Err Category :=
  if !(category.type.IsIncome || category.type.IsExpense) then
    (s, .error (.validation "Category is neither income nor expense"))
  else
    let tx := Tx.start
    let found := lookupCategory s category.accountId category.name
    match found with
    | some existingCategory =>
        let (_t, _) := tx.commit
        (s, .ok existingCategory)
    | none =>
        let newCat : Category :=
          { id := s.nextCategoryId, accountId := category.accountId,
            name := category.name, type := category.type }
        let s1 := { s with categories := s.categories ++ [newCat],
                           nextCategoryId := s.nextCategoryId + 1 }
        let (_t, _) := tx.commit
        (s1, .ok newCat)

/-- The Go map `categoriesIDs[category.Name] = category.ID` built by
iterating a list in order: a later entry overwrites an earlier one, and a
missing key yields the zero value `0`. -/
def lookupLast (m : List (String × Int)) (k : String) : Int :=
  match m.reverse.find? (fun p => p.1 == k) with
  | some p => p.2
  | none => 0

/-- One VALUES tuple of the bulk `INSERT INTO entry ...` in `SaveEntries`. -/
def mkEntryRow (id : Int) (categoriesIDs : List (String × Int)) (e : Entry) :
    EntryRow :=
  { id := id, accountId := e.accountId, affectedAccountId := e.affectedAccountId,
    type := e.type, description := e.description, amount := e.amount,
    date := e.date, category := lookupLast categoriesIDs (valueOrZero e.category) }

/-- The bulk entry insert, with auto-increment ids. -/
def insertEntryRows (categoriesIDs : List (String × Int)) (s : Store) :
    List Entry → Store
  | [] => s
  | e :: es =>
      insertEntryRows categoriesIDs
        { s with
            entries := s.entries ++ [mkEntryRow s.nextEntryId categoriesIDs e],
            nextEntryId := s.nextEntryId + 1 } es

/-- `SaveEntries`: builds one category per entry keyed to the first entry's
account id, begins a transaction (whose handle no statement uses), resolves
the categories, bulk-inserts the entry rows on the raw connection, and
commits; on insert failure it rolls the (empty) transaction back. -/
def saveEntries (entryInsertFails : Bool) (s : Store) (entries : List Entry) :
    Store × Except Err Unit :=
  match entries with
  | [] => (s, .ok ())
  | e0 :: _ =>
    let accountID := e0.accountId
    let entryCategories : List Category := entries.map (fun e =>
      { id := 0, accountId := accountID, name := valueOrZero e.category,
        type := e.type })
    let tx := Tx.start
    match createCategoriesIfNotExist s entryCategories with
    | (s1, .error e) => (s1, .error e)
    | (s1, .ok categories) =>
        let categoriesIDs := categories.map (fun c => (c.name, c.id))
        if entryInsertFails then
          let (_t, _) := tx.rollback
          (s1, .error .insertFailed)
        else
          let s2 := insertEntryRows categoriesIDs s1 entries
          let (_t, _) := tx.commit
          (s2, .ok ())

/-- The row predicate of `UpdateEntry`: `WHERE id = ? AND account_id = ?`. -/
def entryRowMatches (e : Entry) (r : EntryRow) : Bool :=
  r.id == e.id && r.accountId == e.accountId

/-- The column assignments of `UpdateEntry`'s UPDATE statement: type,
description, amount, date and the resolved category id. -/
def updatedRow (e : Entry) (catId : Int) (r : EntryRow) : EntryRow :=
  { r with type := e.type, description := e.description, amount := e.amount,
           date := e.date, category := catId }

/-- `UpdateEntry`: rejects id 0, re-resolves the category, updates the
mutable columns of every row matching (id, account_id), commits, and
returns a not-found error when zero rows were affected. -/
def updateEntry (s : Store) (entry : Entry) : Store × Except Err Unit :=
  if entry.id == 0 then
    (s, .error (.validation "Cant update nil entry"))
  else
    let tx := Tx.start
    match createCategoryIfNotExists s
        { id := 0, accountId := entry.accountId,
          name := valueOrZero entry.category, type := entry.type } with
    | (s1, .error e) => (s1, .error e)
    | (s1, .ok category) =>
        let rowsAffected := (s1.entries.filter (entryRowMatches entry)).length
        let s2 := { s1 with entries := s1.entries.map (fun r =>
            if entryRowMatches entry r then updatedRow entry category.id r
            else r) }
        let (_t, _) := tx.commit
        if rowsAffected == 0 then (s2, .error .notFound) else (s2, .ok ())

/-- `DeleteEntries`: deletes every entry row whose id is in `ids` (the
statement runs on the raw connection), then commits the transaction twice;
the second commit returns `ErrTxDone`, which the function returns with
count 0. -/
def deleteEntries (s : Store) (ids : List Int) : Store × Except Err Int :=
  let tx := Tx.start
  let rowsAffected := (s.entries.filter (fun r => ids.contains r.id)).length
  let s1 := { s with entries := s.entries.filter (fun r => !(ids.contains r.id)) }
  let (tx1, _) := tx.commit
  let (_tx2, c2) := tx1.commit
  match c2 with
  | .error e => (s1, .error e)
  | .ok _ => (s1, .ok (Int.ofNat rowsAffected))

/-- `model.ExpenseRange`. -/
structure ExpenseRange where
  minAmount : Int
  maxAmount : Int
deriving DecidableEq, Repr

/-- `GetMininumAndMaximumExpenseForYear`: `SELECT MIN(amount), MAX(amount)
FROM cumulative_amount` with no year predicate; the `year` argument is not
used by the query.  On an empty projection the aggregate row holds NULLs and
scanning them into `float64` fails. -/
def getMininumAndMaximumExpenseForYear (year : Int) (s : Store) :
    Except Err ExpenseRange :=
  let _ := year
  match s.cumulative.map (·.amount) with
  | [] => .error (.validation "converting NULL to float64 is unsupported")
  | a :: rest =>
      .ok { minAmount := rest.foldl min a, maxAmount := rest.foldl max a }

/-- `TimeRange` from the DAO package (dates modelled as `Int`). -/
structure TimeRange where
  startDate : Int
  endDate : Int
deriving DecidableEq, Repr

/-- The WHERE clause of `Entries`: the account owns the row or is its
affected account, and the date lies in the inclusive range. -/
def entriesWhere (accountId : Int) (tr : TimeRange) (r : EntryRow) : Bool :=
  (r.accountId == accountId || r.affectedAccountId == some accountId) &&
  (tr.startDate ≤ r.date && r.date ≤ tr.endDate)

/-- The comparator of `ORDER BY e.date DESC, e.id DESC`. -/
def entryLe (a b : EntryRow) : Bool :=
  b.date < a.date || (a.date == b.date && b.id ≤ a.id)

/-- `Entries`: filter by account and inclusive date range, ordered by date
descending then id descending. -/
def Entries (s : Store) (accountId : Int) (tr : TimeRange) : List EntryRow :=
  (s.entries.filter (entriesWhere accountId tr)).mergeSort entryLe

/-- The amount written for one row by the CSV export loop of
`ExportEntriesFromCSV`: only an expense is negated. -/
def exportedAmount (e : EntryRow) : Int :=
  if e.type.IsExpense then -e.amount else e.amount

/-- The amount column of the CSV produced by `ExportEntriesFromCSV` for one
account and date range. -/
def exportEntriesAmounts (s : Store) (accountId : Int) (tr : TimeRange) :
    List Int :=
  (Entries s accountId tr).map exportedAmount

/-- The amount displayed for one row by `EntryList.renderView`: income is
shown as is, an expense is negated, and a transfer is negated exactly when
the viewing account is not the receiver (`accountIsReceiver` is
`account.id === entry.affectedAccountId`). -/
def renderedAmount (accountId : Int) (e : EntryRow) : Int :=
  match e.type with
  | .income => e.amount
  | .expense => -e.amount
  | .transfer =>
      if e.affectedAccountId == some accountId then e.amount else -e.amount

/-- One record of the uploaded CSV in `ImportEntriesFromCSV`. -/
structure CsvRow where
  date : String
  amount : String
  category : String
  description : String
deriving DecidableEq, Repr

/-- One iteration of the row loop of `ImportEntriesFromCSV`.  `parseDate`
stands for the `time.Parse` attempts over the acceptable layouts and
`parseAmount` for `decimal.NewFromString`; both are stdlib collaborators
abstracted as parameters.  A negative amount makes the entry an expense of
the absolute magnitude, otherwise it is an income. -/
def importRow (parseDate : String → Option Int) (parseAmount : String → Option Int)
    (accountID : Int) (affectedAccountID : Option Int) (i : Nat) (row : CsvRow) :
    Except String Entry :=
  if row.date.isEmpty || row.amount.isEmpty then
    .error ("Entry " ++ toString i ++ ": Date and Amount columns are mandatory")
  else
    match parseDate row.date with
    | none => .error ("Entry " ++ toString i ++ ": unacceptable date layout")
    | some date =>
        match parseAmount row.amount with
        | none => .error ("Entry " ++ toString i ++ ": Amount is not a decimal")
        | some rawAmount =>
            .ok { id := 0, accountId := accountID,
                  affectedAccountId := affectedAccountID,
                  type := if rawAmount < 0 then Ty.expense else Ty.income,
                  description :=
                    if row.description.isEmpty then none else some row.description,
                  category :=
                    if row.category.isEmpty then none else some row.category,
                  amount := if rawAmount < 0 then -rawAmount else rawAmount,
                  date := date }

/-- The row loop of `ImportEntriesFromCSV` from index `i`: a malformed row
appends a message to the error report (the Go `errorBuilder`) and is
skipped; a well-formed row is appended to the parsed entries. -/
def importRowsFrom (parseDate parseAmount : String → Option Int)
    (accountID : Int) (affectedAccountID : Option Int) :
    Nat → List CsvRow → List Entry × List String
  | _, [] => ([], [])
  | i, row :: rest =>
      let (es, errs) :=
        importRowsFrom parseDate parseAmount accountID affectedAccountID (i + 1) rest
      match importRow parseDate parseAmount accountID affectedAccountID i row with
      | .ok e => (e :: es, errs)
      | .error m => (es, m :: errs)

/-- The full row loop of `ImportEntriesFromCSV`: parsed entries plus the
accumulated error report. -/
def importRows (parseDate parseAmount : String → Option Int)
    (accountID : Int) (affectedAccountID : Option Int) (rows : List CsvRow) :
    List Entry × List String :=
  importRowsFrom parseDate parseAmount accountID affectedAccountID 0 rows

/-- `ImportEntriesFromCSV` after parsing: the error report is dropped (the
Go `errorBuilder` is never read), the parsed entries are saved with
`SaveEntries`, and on success the handler responds with the parsed entries
only. -/
def importEntriesFromCSV (parseDate parseAmount : String → Option Int)
    (accountID : Int) (affectedAccountID : Option Int) (s : Store)
    (rows : List CsvRow) : Store × Except Err (List Entry) :=
  let (entries, _errorReport) :=
    importRows parseDate parseAmount accountID affectedAccountID rows
  match saveEntries false s entries with
  | (s1, .error e) => (s1, .error e)
  | (s1, .ok _) => (s1, .ok entries)

/-- A store with no rows and fresh auto-increment counters. -/
def emptyStore : Store :=
  { categories := [], entries := [], cumulative := [], nextCategoryId := 1,
    nextEntryId := 1 }

/-- A one-entry batch whose category "Food" is new to the store. -/
def foodBatch : List Entry :=
  [{ id := 0, accountId := 1, affectedAccountId := none, type := Ty.expense,
     description := none, category := some "Food", amount := 30, date := 100 }]

/-- A store whose cumulative-amount projection only holds 2023 data. -/
def store2023 : Store :=
  { categories := [], entries := [],
    cumulative := [{ accountId := 1, year := 2023, month := 5, amount := 42 }],
    nextCategoryId := 1, nextEntryId := 1 }

/-- A store holding an income category named "Food" for account 1. -/
def storeFoodIncome : Store :=
  { categories := [{ id := 7, accountId := 1, name := "Food", type := Ty.income }],
    entries := [], cumulative := [], nextCategoryId := 8, nextEntryId := 1 }

/-- A store holding entry rows with ids 1 and 2 (and no id 999). -/
def storeTwoEntries : Store :=
  { categories := [],
    entries :=
      [{ id := 1, accountId := 1, affectedAccountId := none, type := Ty.expense,
         description := none, amount := 10, date := 100, category := 0 },
       { id := 2, accountId := 1, affectedAccountId := none, type := Ty.expense,
         description := none, amount := 20, date := 101, category := 0 }],
    cumulative := [], nextCategoryId := 1, nextEntryId := 3 }

/-- A transfer row of magnitude 30 owned by account 1 towards account 2. -/
def transferRow : EntryRow :=
  { id := 5, accountId := 1, affectedAccountId := some 2, type := Ty.transfer,
    description := none, amount := 30, date := 100, category := 0 }

/-- A store holding only `transferRow`. -/
def storeTransfer : Store :=
  { categories := [], entries := [transferRow], cumulative := [],
    nextCategoryId := 1, nextEntryId := 6 }

/-- A concrete date parser accepting only "2024-01-05", standing for
`time.Parse` in closed evaluations. -/
def sampleParseDate (str : String) : Option Int :=
  if str == "2024-01-05" then some 100 else none

/-- A concrete amount parser accepting only "50", standing for
`decimal.NewFromString` in closed evaluations. -/
def sampleParseAmount (str : String) : Option Int :=
  if str == "50" then some 50 else none

/-- A CSV batch whose first row is malformed (empty Amount column) and whose
second row is well-formed. -/
def mixedCsvRows : List CsvRow :=
  [{ date := "2024-01-05", amount := "", category := "", description := "" },
   { date := "2024-01-05", amount := "50", category := "Food", description := "" }]

/-- The entry parsed from the well-formed row of `mixedCsvRows`. -/
def parsedGoodEntry : Entry :=
  { id := 0, accountId := 1, affectedAccountId := none, type := Ty.income,
    description := none, category := some "Food", amount := 50, date := 100 }

/-- An update request targeting the row (id 1, account 1). -/
def updateTarget : Entry :=
  { id := 1, accountId := 1, affectedAccountId := none, type := Ty.income,
    description := none, category := some "Misc", amount := 5, date := 99 }

/-- An update request carrying the Transfer type. -/
def transferUpdate : Entry :=
  { id := 1, accountId := 1, affectedAccountId := some 2, type := Ty.transfer,
    description := none, category := none, amount := 30, date := 100 }

/-- A two-entry batch whose entries belong to different accounts (1 and 2)
and carry distinct new categories. -/
def crossAccountBatch : List Entry :=
  [{ id := 0, accountId := 1, affectedAccountId := none, type := Ty.expense,
     description := none, category := some "Food", amount := 30, date := 100 },
   { id := 0, accountId := 2, affectedAccountId := none, type := Ty.expense,
     description := none, category := some "Gym", amount := 40, date := 101 }]

/-- C1: `SaveEntries` is not atomic.  On the batch `foodBatch` over the
empty store, when the bulk entry insert fails the call returns an error and
no entry persists, but the category "Food" created for the batch has been
committed by `CreateCategoriesIfNotExist`'s own transaction and persists:
the store state is not unchanged on error. -/
theorem c1_saveEntries_failed_insert_keeps_categories :
    (saveEntries true emptyStore foodBatch).2 = .error Err.insertFailed ∧
    (saveEntries true emptyStore foodBatch).1.entries = [] ∧
    (saveEntries true emptyStore foodBatch).1.categories =
      [{ id := 1, accountId := 1, name := "Food", type := Ty.expense }] ∧
    (saveEntries true emptyStore foodBatch).1 ≠ emptyStore := by
  decide

/-- C2: `GetMininumAndMaximumExpenseForYear` does not scope to the year.
Over a store whose cumulative projection holds only 2023 rows, the query
for 2024 still returns the minimum and maximum of those 2023 amounts. -/
theorem c2_expenseRange_ignores_year :
    (∀ r ∈ store2023.cumulative, r.year = 2023) ∧
    getMininumAndMaximumExpenseForYear 2024 store2023 =
      .ok { minAmount := 42, maxAmount := 42 } := by
  decide

/-- C4: `DeleteEntries` commits its transaction twice; the second commit
returns `ErrTxDone`, so on `deleteEntries([1,2,999])` over a store holding
ids 1 and 2 the rows are removed but the call reports the error with count
0 instead of succeeding with count 2. -/
theorem c4_deleteEntries_double_commit :
    (deleteEntries storeTwoEntries [1, 2, 999]).1.entries = [] ∧
    (deleteEntries storeTwoEntries [1, 2, 999]).2 = .error Err.txDone ∧
    (deleteEntries storeTwoEntries [1, 2, 999]).2 ≠ .ok 2 := by
  decide

/-- C9: `ImportEntriesFromCSV` skips the malformed first row of
`mixedCsvRows` and records a per-row message in its error report, but the
handler's response is the plain success list of parsed entries: the batch is
neither aborted nor is the report surfaced. -/
theorem c9_import_records_error_but_discards_report :
    (importRows sampleParseDate sampleParseAmount 1 none mixedCsvRows).2.length = 1 ∧
    (importRows sampleParseDate sampleParseAmount 1 none mixedCsvRows).1 =
      [parsedGoodEntry] ∧
    (importEntriesFromCSV sampleParseDate sampleParseAmount 1 none emptyStore
        mixedCsvRows).2 = .ok [parsedGoodEntry] := by
  decide

/-- C3 counterexample: `storeFoodIncome` holds no category with the triple
(1, "Food", Expense), so the claim requires `CreateCategoryIfNotExists`
called with that triple to insert a new category and return it; instead the
code returns the existing income category of the same name and inserts
nothing. -/
theorem c3_counterexample_lookup_ignores_type :
    (∀ c ∈ storeFoodIncome.categories,
      ¬(c.accountId = 1 ∧ c.name = "Food" ∧ c.type = Ty.expense)) ∧
    (createCategoryIfNotExists storeFoodIncome
        { id := 0, accountId := 1, name := "Food", type := Ty.expense }).1 =
      storeFoodIncome ∧
    (createCategoryIfNotExists storeFoodIncome
        { id := 0, accountId := 1, name := "Food", type := Ty.expense }).2 =
      .ok { id := 7, accountId := 1, name := "Food", type := Ty.income } ∧
    Ty.income ≠ Ty.expense := by
  decide

/-- C6 counterexample: the CSV export requested for account 1, the owning
account of `transferRow`, writes the transfer of magnitude 30 as 30, not as
the -30 the claim requires from the owning account's viewpoint. -/
theorem c6_counterexample_export_transfer_positive :
    transferRow.type = Ty.transfer ∧
    transferRow.accountId = 1 ∧
    exportEntriesAmounts storeTransfer 1 { startDate := 0, endDate := 200 } =
      [30] ∧
    (30 : Int) ≠ -30 := by
  refine ⟨rfl, rfl, ?_, by decide⟩
  have hf : storeTransfer.entries.filter
      (entriesWhere 1 { startDate := 0, endDate := 200 }) = [transferRow] := by
    decide
  unfold exportEntriesAmounts Entries
  rw [hf, List.mergeSort_singleton]
  decide

/-- C7 counterexample: called on the empty store with an empty name and
income type, `CreateCategoryIfNotExists` does not fail with a validation
error; it inserts and returns a category row with the empty name. -/
theorem c7_counterexample_empty_name_accepted :
    (createCategoryIfNotExists emptyStore
        { id := 0, accountId := 1, name := "", type := Ty.income }).2 =
      .ok { id := 1, accountId := 1, name := "", type := Ty.income } ∧
    (createCategoryIfNotExists emptyStore
        { id := 0, accountId := 1, name := "", type := Ty.income }).1.categories =
      [{ id := 1, accountId := 1, name := "", type := Ty.income }] := by
  decide

/-- C7 (amended): `CreateCategoryIfNotExists` fails with a ValidationError
exactly when the given type is neither Income nor Expense, and in that
failing case the store is unchanged (no row inserted); an empty name is not
validated and causes no failure. -/
theorem c7_validation_iff_invalid_type (s : Store) (c : Category) :
    ((createCategoryIfNotExists s c).2 =
        .error (Err.validation "Category is neither income nor expense") ↔
      c.type = Ty.transfer) ∧
    (c.type = Ty.transfer → (createCategoryIfNotExists s c).1 = s) := by
  cases htype : c.type with
  | transfer =>
      simp [createCategoryIfNotExists, Ty.IsIncome, Ty.IsExpense, htype]
  | income =>
      cases hl : lookupCategory s c.accountId c.name <;>
        simp [createCategoryIfNotExists, Ty.IsIncome, Ty.IsExpense, htype, hl]
  | expense =>
      cases hl : lookupCategory s c.accountId c.name <;>
        simp [createCategoryIfNotExists, Ty.IsIncome, Ty.IsExpense, htype, hl]

/-- Witness for C7 (amended) at a concrete transfer-typed argument. -/
theorem c7_validation_iff_invalid_type_witness :
    ((createCategoryIfNotExists emptyStore
        { id := 0, accountId := 1, name := "X", type := Ty.transfer }).2 =
        .error (Err.validation "Category is neither income nor expense") ↔
      Ty.transfer = Ty.transfer) ∧
    (Ty.transfer = Ty.transfer →
      (createCategoryIfNotExists emptyStore
        { id := 0, accountId := 1, name := "X", type := Ty.transfer }).1 =
        emptyStore) :=
  c7_validation_iff_invalid_type emptyStore
    { id := 0, accountId := 1, name := "X", type := Ty.transfer }

/-- C3 (amended): for a type that is Income or Expense,
`CreateCategoryIfNotExists` returns the existing category whose pair
(accountId, name) matches the arguments — the type is not part of the
lookup — leaving the store unchanged; otherwise it inserts a new category
carrying the full triple and returns it.  Calling it again with identical
arguments returns the same category identity and changes nothing. -/
theorem c3_resolveOrCreate_keyed_by_account_and_name (s : Store) (c : Category)
    (h : (c.type.IsIncome || c.type.IsExpense) = true) :
    ∃ cat, (createCategoryIfNotExists s c).2 = .ok cat ∧
      (∀ pre, lookupCategory s c.accountId c.name = some pre →
        cat = pre ∧ (createCategoryIfNotExists s c).1 = s) ∧
      (lookupCategory s c.accountId c.name = none →
        cat = { id := s.nextCategoryId, accountId := c.accountId,
                name := c.name, type := c.type } ∧
        (createCategoryIfNotExists s c).1.categories = s.categories ++ [cat]) ∧
      createCategoryIfNotExists (createCategoryIfNotExists s c).1 c =
        ((createCategoryIfNotExists s c).1, .ok cat) := by
  have hcond : (!(c.type.IsIncome || c.type.IsExpense)) = false := by
    simp [h]
  cases hl : lookupCategory s c.accountId c.name with
  | some pre =>
      have heq : createCategoryIfNotExists s c = (s, .ok pre) := by
        simp [createCategoryIfNotExists, hcond, hl]
      refine ⟨pre, by rw [heq], ?_, ?_, ?_⟩
      · intro p hp
        cases hp
        exact ⟨rfl, by rw [heq]⟩
      · intro hnone
        cases hnone
      · rw [heq]
        exact heq
  | none =>
      have hfilter : s.categories.filter
          (fun x => x.accountId == c.accountId && x.name == c.name) = [] := by
        have h' := hl
        unfold lookupCategory at h'
        exact List.head?_eq_none_iff.mp h'
      have heq : createCategoryIfNotExists s c =
          ({ s with
              categories := s.categories ++
                [{ id := s.nextCategoryId, accountId := c.accountId,
                   name := c.name, type := c.type }],
              nextCategoryId := s.nextCategoryId + 1 },
            .ok { id := s.nextCategoryId, accountId := c.accountId,
                  name := c.name, type := c.type }) := by
        simp [createCategoryIfNotExists, hcond, hl]
      refine ⟨{ id := s.nextCategoryId, accountId := c.accountId,
                name := c.name, type := c.type }, by rw [heq], ?_, ?_, ?_⟩
      · intro p hp
        cases hp
      · intro _
        exact ⟨rfl, by rw [heq]⟩
      · have hl2 : lookupCategory (createCategoryIfNotExists s c).1
            c.accountId c.name =
            some { id := s.nextCategoryId, accountId := c.accountId,
                   name := c.name, type := c.type } := by
          rw [heq]
          unfold lookupCategory
          simp [List.filter_append, hfilter]
        set s1 := (createCategoryIfNotExists s c).1 with hs1
        simp [createCategoryIfNotExists, hcond, hl2]

/-- Witness for C3 (amended) on the empty store with the expense category
"Groceries". -/
theorem c3_resolveOrCreate_keyed_by_account_and_name_witness :
    ∃ cat, (createCategoryIfNotExists emptyStore
        { id := 0, accountId := 1, name := "Groceries", type := Ty.expense }).2 =
        .ok cat ∧
      (∀ pre, lookupCategory emptyStore 1 "Groceries" = some pre →
        cat = pre ∧
          (createCategoryIfNotExists emptyStore
            { id := 0, accountId := 1, name := "Groceries",
              type := Ty.expense }).1 = emptyStore) ∧
      (lookupCategory emptyStore 1 "Groceries" = none →
        cat = { id := 1, accountId := 1, name := "Groceries",
                type := Ty.expense } ∧
        (createCategoryIfNotExists emptyStore
          { id := 0, accountId := 1, name := "Groceries",
            type := Ty.expense }).1.categories =
          emptyStore.categories ++ [cat]) ∧
      createCategoryIfNotExists
          (createCategoryIfNotExists emptyStore
            { id := 0, accountId := 1, name := "Groceries",
              type := Ty.expense }).1
          { id := 0, accountId := 1, name := "Groceries", type := Ty.expense } =
        ((createCategoryIfNotExists emptyStore
            { id := 0, accountId := 1, name := "Groceries",
              type := Ty.expense }).1, .ok cat) :=
  c3_resolveOrCreate_keyed_by_account_and_name emptyStore
    { id := 0, accountId := 1, name := "Groceries", type := Ty.expense }
    (by decide)

/-- The ORDER BY comparator of `Entries` is transitive. -/
theorem entryLe_trans : ∀ a b c : EntryRow, entryLe a b → entryLe b c → entryLe a c := by
  intro a b c hab hbc
  simp only [entryLe, Bool.or_eq_true, Bool.and_eq_true, decide_eq_true_eq,
    beq_iff_eq] at *
  omega

/-- The ORDER BY comparator of `Entries` is total. -/
theorem entryLe_total : ∀ a b : EntryRow, entryLe a b || entryLe b a := by
  intro a b
  simp only [entryLe, Bool.or_eq_true, Bool.and_eq_true, decide_eq_true_eq,
    beq_iff_eq]
  omega

/-- C5: `Entries` returns exactly the rows where the account is the owner or
the affected account and whose date lies in the inclusive range, ordered by
date descending and, on equal dates, by id descending. -/
theorem c5_entries_membership_and_order (s : Store) (accountId : Int)
    (tr : TimeRange) :
    (∀ e, e ∈ Entries s accountId tr ↔
      e ∈ s.entries ∧
        (e.accountId = accountId ∨ e.affectedAccountId = some accountId) ∧
        tr.startDate ≤ e.date ∧ e.date ≤ tr.endDate) ∧
    List.Pairwise
      (fun a b => b.date < a.date ∨ (a.date = b.date ∧ b.id ≤ a.id))
      (Entries s accountId tr) := by
  constructor
  · intro e
    unfold Entries
    rw [List.mem_mergeSort, List.mem_filter]
    simp [entriesWhere, and_assoc]
  · unfold Entries
    refine (List.sorted_mergeSort entryLe_trans entryLe_total
      (s.entries.filter (entriesWhere accountId tr))).imp ?_
    intro a b hab
    simp only [entryLe, Bool.or_eq_true, Bool.and_eq_true, decide_eq_true_eq,
      beq_iff_eq] at hab
    exact hab

/-- With a type that is Income or Expense, `CreateCategoryIfNotExists`
always succeeds and leaves the entry table untouched. -/
theorem createCategoryIfNotExists_ok (s : Store) (c : Category)
    (h : (c.type.IsIncome || c.type.IsExpense) = true) :
    ∃ cat, (createCategoryIfNotExists s c).2 = .ok cat ∧
      (createCategoryIfNotExists s c).1.entries = s.entries := by
  have hcond : (!(c.type.IsIncome || c.type.IsExpense)) = false := by
    simp [h]
  cases hl : lookupCategory s c.accountId c.name with
  | some pre =>
      exact ⟨pre, by simp [createCategoryIfNotExists, hcond, hl]⟩
  | none =>
      exact ⟨{ id := s.nextCategoryId, accountId := c.accountId,
               name := c.name, type := c.type },
        by simp [createCategoryIfNotExists, hcond, hl]⟩

/-- C8 (amended): for an entry with non-zero id whose type is Income or
Expense, `UpdateEntry` only touches rows whose (id, account_id) pair equals
the argument entry's — a row that does not carry both the target id and the
target account id survives unchanged, and every result row is either an
unchanged old row or carries the target pair — and it returns the not-found
error exactly when no row matches the (id, accountId) predicate. -/
theorem c8_updateEntry_scoped_and_notFound (s : Store) (e : Entry)
    (h1 : e.id ≠ 0) (h2 : (e.type.IsIncome || e.type.IsExpense) = true) :
    (∀ r ∈ s.entries, ¬(r.id = e.id ∧ r.accountId = e.accountId) →
      r ∈ (updateEntry s e).1.entries) ∧
    (∀ r ∈ (updateEntry s e).1.entries,
      r ∈ s.entries ∨ (r.id = e.id ∧ r.accountId = e.accountId)) ∧
    ((updateEntry s e).2 = .error Err.notFound ↔
      ∀ r ∈ s.entries, ¬(r.id = e.id ∧ r.accountId = e.accountId)) := by
  have hid : (e.id == 0) = false := by
    simp [h1]
  obtain ⟨cat, hcat, hentries⟩ := createCategoryIfNotExists_ok s
    { id := 0, accountId := e.accountId, name := valueOrZero e.category,
      type := e.type } h2
  rcases hq : createCategoryIfNotExists s
      { id := 0, accountId := e.accountId, name := valueOrZero e.category,
        type := e.type } with ⟨s1, r1⟩
  have hr1 : r1 = .ok cat := by
    rw [hq] at hcat
    exact hcat
  have hs1e : s1.entries = s.entries := by
    rw [hq] at hentries
    exact hentries
  subst hr1
  obtain ⟨res, hst, hres⟩ : ∃ res, updateEntry s e =
      ({ s1 with
          entries := s.entries.map (fun r =>
            if entryRowMatches e r then updatedRow e cat.id r else r) }, res) ∧
      (res = .error Err.notFound ↔
        (s.entries.filter (entryRowMatches e)).length = 0) := by
    simp only [updateEntry, hid, hq, hs1e, Bool.false_eq_true, if_false]
    split
    next hzero =>
        refine ⟨.error Err.notFound, rfl, ?_⟩
        simp only [Nat.beq_eq_true_eq] at hzero
        simp [hzero]
    next hzero =>
        refine ⟨.ok (), rfl, ?_⟩
        simp only [Nat.beq_eq_true_eq] at hzero
        simp [hzero]
  have hEnt : (updateEntry s e).1.entries = s.entries.map (fun r =>
      if entryRowMatches e r then updatedRow e cat.id r else r) := by
    rw [hst]
  have hRes : (updateEntry s e).2 = res := by
    rw [hst]
  refine ⟨?_, ?_, ?_⟩
  · intro r hr hnot
    have hf : entryRowMatches e r = false := by
      cases hb : entryRowMatches e r
      · rfl
      · exfalso
        apply hnot
        simp only [entryRowMatches, Bool.and_eq_true, beq_iff_eq] at hb
        exact hb
    rw [hEnt]
    have hmem := List.mem_map_of_mem (f := fun r =>
      if entryRowMatches e r then updatedRow e cat.id r else r) hr
    simp only [hf, Bool.false_eq_true, if_false] at hmem
    exact hmem
  · intro r hr
    rw [hEnt] at hr
    simp only [List.mem_map] at hr
    obtain ⟨r0, hr0, hfr⟩ := hr
    cases hb : entryRowMatches e r0
    · simp only [hb, Bool.false_eq_true, if_false] at hfr
      left
      rw [← hfr]
      exact hr0
    · simp only [hb, if_true] at hfr
      right
      have hprops : r0.id = e.id ∧ r0.accountId = e.accountId := by
        simp only [entryRowMatches, Bool.and_eq_true, beq_iff_eq] at hb
        exact hb
      rw [← hfr]
      exact hprops
  · rw [hRes, hres, List.length_eq_zero, List.filter_eq_nil_iff]
    constructor
    · intro hall r hr hcontra
      apply hall r hr
      simp only [entryRowMatches, Bool.and_eq_true, beq_iff_eq]
      exact hcontra
    · intro hall r hr hb
      apply hall r hr
      simp only [entryRowMatches, Bool.and_eq_true, beq_iff_eq] at hb
      exact hb

/-- C8 counterexample: on the empty store — where zero rows match the
(id, accountId) predicate — an update request of Transfer type does not
return the not-found error the claim requires; category re-resolution
rejects the Transfer type first and `UpdateEntry` surfaces that validation
error instead. -/
theorem c8_counterexample_transfer_update_not_notFound :
    emptyStore.entries = [] ∧
    (updateEntry emptyStore transferUpdate).2 =
      .error (Err.validation "Category is neither income nor expense") ∧
    (updateEntry emptyStore transferUpdate).2 ≠ .error Err.notFound := by
  decide

/-- Witness for C8 on a store holding rows 1 and 2 of account 1 and an
update targeting (id 1, account 1). -/
theorem c8_updateEntry_scoped_and_notFound_witness :
    (∀ r ∈ storeTwoEntries.entries,
      ¬(r.id = updateTarget.id ∧ r.accountId = updateTarget.accountId) →
      r ∈ (updateEntry storeTwoEntries updateTarget).1.entries) ∧
    (∀ r ∈ (updateEntry storeTwoEntries updateTarget).1.entries,
      r ∈ storeTwoEntries.entries ∨
        (r.id = updateTarget.id ∧ r.accountId = updateTarget.accountId)) ∧
    ((updateEntry storeTwoEntries updateTarget).2 = .error Err.notFound ↔
      ∀ r ∈ storeTwoEntries.entries,
        ¬(r.id = updateTarget.id ∧ r.accountId = updateTarget.accountId)) :=
  c8_updateEntry_scoped_and_notFound storeTwoEntries updateTarget
    (by decide) (by decide)

/-- The batched category insert leaves the entry table and its counter
untouched. -/
theorem insertCategoryRows_entries (s : Store) (cs : List Category) :
    (insertCategoryRows s cs).entries = s.entries ∧
    (insertCategoryRows s cs).nextEntryId = s.nextEntryId := by
  induction cs generalizing s with
  | nil => exact ⟨rfl, rfl⟩
  | cons c cs ih =>
      rw [insertCategoryRows]
      exact ih _

/-- Every category present after the batched insert was already present or
carries the account id of one of the inserted inputs. -/
theorem insertCategoryRows_mem (s : Store) (cs : List Category) :
    ∀ c' ∈ (insertCategoryRows s cs).categories,
      c' ∈ s.categories ∨ ∃ c ∈ cs, c'.accountId = c.accountId := by
  induction cs generalizing s with
  | nil =>
      intro c' h
      exact .inl h
  | cons c cs ih =>
      intro c' h
      rw [insertCategoryRows] at h
      rcases ih _ c' h with h' | ⟨c2, hc2, hacc⟩
      · rcases List.mem_append.mp h' with h'' | h''
        · exact .inl h''
        · right
          refine ⟨c, List.mem_cons_self c cs, ?_⟩
          have hcc : c' = { id := s.nextCategoryId, accountId := c.accountId,
                            name := c.name, type := c.type } := by
            simpa using h''
          rw [hcc]
      · exact .inr ⟨c2, List.mem_cons_of_mem _ hc2, hacc⟩

/-- `CreateCategoriesIfNotExist` always succeeds, leaves the entry table and
its counter untouched, and only adds categories keyed to the account ids of
its inputs. -/
theorem createCategoriesIfNotExist_shape (s : Store) (cats : List Category) :
    (createCategoriesIfNotExist s cats).1.entries = s.entries ∧
    (createCategoriesIfNotExist s cats).1.nextEntryId = s.nextEntryId ∧
    (∃ result, (createCategoriesIfNotExist s cats).2 = .ok result) ∧
    (∀ c' ∈ (createCategoriesIfNotExist s cats).1.categories,
      c' ∈ s.categories ∨ ∃ c ∈ cats, c'.accountId = c.accountId) := by
  match cats with
  | [] =>
      refine ⟨rfl, rfl, ⟨[], rfl⟩, ?_⟩
      intro c' h
      exact .inl h
  | c0 :: rest =>
      simp only [createCategoriesIfNotExist]
      split
      · refine ⟨rfl, rfl, ⟨_, rfl⟩, ?_⟩
        intro c' h
        exact .inl h
      · refine ⟨(insertCategoryRows_entries s _).1,
          (insertCategoryRows_entries s _).2, ⟨_, rfl⟩, ?_⟩
        intro c' h
        rcases insertCategoryRows_mem s _ c' h with h' | ⟨c2, hc2, hacc⟩
        · exact .inl h'
        · exact .inr ⟨c2, List.mem_of_mem_filter hc2, hacc⟩

/-- The bulk entry insert appends one row per input entry, each keeping its
input's account id, and does not touch the category table. -/
theorem insertEntryRows_shape (ids : List (String × Int)) (s : Store)
    (es : List Entry) :
    ∃ rows, (insertEntryRows ids s es).entries = s.entries ++ rows ∧
      rows.map (·.accountId) = es.map (·.accountId) ∧
      (insertEntryRows ids s es).categories = s.categories := by
  induction es generalizing s with
  | nil => exact ⟨[], by simp [insertEntryRows], rfl, rfl⟩
  | cons e es ih =>
      obtain ⟨rows, h1, h2, h3⟩ := ih
        { s with entries := s.entries ++ [mkEntryRow s.nextEntryId ids e],
                 nextEntryId := s.nextEntryId + 1 }
      refine ⟨mkEntryRow s.nextEntryId ids e :: rows, ?_, ?_, ?_⟩
      · rw [insertEntryRows, h1]
        simp
      · simp only [List.map_cons, h2, mkEntryRow]
      · rw [insertEntryRows]
        exact h3

/-- C10: on a non-empty batch, `SaveEntries` keys every category it resolves
or creates to the account id of the first entry of the batch, while the
inserted entry rows keep each entry's own account id (and the pre-existing
rows are untouched). -/
theorem c10_saveEntries_categories_keyed_to_first_account (s : Store)
    (e0 : Entry) (rest : List Entry) :
    (∀ c ∈ (saveEntries false s (e0 :: rest)).1.categories,
      c ∈ s.categories ∨ c.accountId = e0.accountId) ∧
    (saveEntries false s (e0 :: rest)).1.entries.take s.entries.length =
      s.entries ∧
    ((saveEntries false s (e0 :: rest)).1.entries.drop s.entries.length).map
        (·.accountId) =
      (e0 :: rest).map (·.accountId) := by
  obtain ⟨hent, hnid, ⟨result, hok⟩, hcatmem⟩ := createCategoriesIfNotExist_shape s
    ((e0 :: rest).map (fun e =>
      ({ id := 0, accountId := e0.accountId, name := valueOrZero e.category,
         type := e.type } : Category)))
  rcases hq : createCategoriesIfNotExist s
      ((e0 :: rest).map (fun e =>
        ({ id := 0, accountId := e0.accountId, name := valueOrZero e.category,
           type := e.type } : Category))) with ⟨s1, r1⟩
  rw [hq] at hent hnid hok hcatmem
  have hr1 : r1 = .ok result := hok
  subst hr1
  have hent' : s1.entries = s.entries := hent
  have hsave : saveEntries false s (e0 :: rest) =
      (insertEntryRows (result.map (fun c => (c.name, c.id))) s1 (e0 :: rest),
        .ok ()) := by
    simp only [saveEntries, hq, Bool.false_eq_true, if_false]
  obtain ⟨rows, hr1, hr2, hr3⟩ :=
    insertEntryRows_shape (result.map (fun c => (c.name, c.id))) s1 (e0 :: rest)
  refine ⟨?_, ?_, ?_⟩
  · intro c hc
    rw [hsave] at hc
    have hc1 : c ∈ s1.categories := by
      rw [← hr3]
      exact hc
    rcases hcatmem c hc1 with h' | ⟨c2, hc2, hacc⟩
    · exact .inl h'
    · right
      simp only [List.mem_map] at hc2
      obtain ⟨e, _, he⟩ := hc2
      rw [hacc, ← he]
  · rw [hsave]
    show (insertEntryRows (result.map (fun c => (c.name, c.id))) s1
      (e0 :: rest)).entries.take s.entries.length = s.entries
    rw [hr1, hent', List.take_left]
  · rw [hsave]
    show ((insertEntryRows (result.map (fun c => (c.name, c.id))) s1
      (e0 :: rest)).entries.drop s.entries.length).map (·.accountId) =
      (e0 :: rest).map (·.accountId)
    rw [hr1, hent', List.drop_left, hr2]

/-- Witness for C10 on the empty store and a batch whose two entries belong
to accounts 1 and 2. -/
theorem c10_saveEntries_categories_keyed_to_first_account_witness :
    (∀ c ∈ (saveEntries false emptyStore crossAccountBatch).1.categories,
      c ∈ emptyStore.categories ∨ c.accountId = 1) ∧
    (saveEntries false emptyStore
        crossAccountBatch).1.entries.take emptyStore.entries.length =
      emptyStore.entries ∧
    ((saveEntries false emptyStore
        crossAccountBatch).1.entries.drop emptyStore.entries.length).map
        (·.accountId) =
      crossAccountBatch.map (·.accountId) := by
  have h := c10_saveEntries_categories_keyed_to_first_account emptyStore
    (crossAccountBatch.get ⟨0, by decide⟩)
    [crossAccountBatch.get ⟨1, by decide⟩]
  exact h

/-- C6 (amended): at presentation the sign is derived from the type, but
the two consumption sites differ on transfers.  The CSV export negates only
expenses — income and transfer rows are written with their positive
magnitude regardless of the viewing account — while the entry-list view
shows income positive, expense negated, and a transfer positive exactly
when the viewing account is the affected (receiving) account and negated
otherwise. -/
theorem c6_sign_convention_by_site (id acct : Int) (aff : Option Int)
    (descr : Option String) (amt date cat viewer : Int) :
    exportedAmount
      { id := id, accountId := acct, affectedAccountId := aff,
        type := Ty.income, description := descr, amount := amt, date := date,
        category := cat } = amt ∧
    exportedAmount
      { id := id, accountId := acct, affectedAccountId := aff,
        type := Ty.expense, description := descr, amount := amt, date := date,
        category := cat } = -amt ∧
    exportedAmount
      { id := id, accountId := acct, affectedAccountId := aff,
        type := Ty.transfer, description := descr, amount := amt, date := date,
        category := cat } = amt ∧
    renderedAmount viewer
      { id := id, accountId := acct, affectedAccountId := aff,
        type := Ty.income, description := descr, amount := amt, date := date,
        category := cat } = amt ∧
    renderedAmount viewer
      { id := id, accountId := acct, affectedAccountId := aff,
        type := Ty.expense, description := descr, amount := amt, date := date,
        category := cat } = -amt ∧
    renderedAmount viewer
      { id := id, accountId := acct, affectedAccountId := some viewer,
        type := Ty.transfer, description := descr, amount := amt, date := date,
        category := cat } = amt ∧
    renderedAmount viewer
      { id := id, accountId := acct, affectedAccountId := none,
        type := Ty.transfer, description := descr, amount := amt, date := date,
        category := cat } = -amt ∧
    renderedAmount viewer
      { id := id, accountId := acct, affectedAccountId := some (viewer + 1),
        type := Ty.transfer, description := descr, amount := amt, date := date,
        category := cat } = -amt := by
  refine ⟨rfl, rfl, rfl, rfl, rfl, ?_, ?_, ?_⟩
  · simp [renderedAmount]
  · simp [renderedAmount]
  · simp only [renderedAmount]
    rw [if_neg]
    simp only [beq_iff_eq, Option.some.injEq]
    omega

/-- Witness for C6 (amended) on a magnitude-30 row viewed from account 2. -/
theorem c6_sign_convention_by_site_witness :
    exportedAmount
      { id := 0, accountId := 1, affectedAccountId := none,
        type := Ty.income, description := none, amount := 30, date := 0,
        category := 0 } = 30 ∧
    exportedAmount
      { id := 0, accountId := 1, affectedAccountId := none,
        type := Ty.expense, description := none, amount := 30, date := 0,
        category := 0 } = -30 ∧
    exportedAmount
      { id := 0, accountId := 1, affectedAccountId := none,
        type := Ty.transfer, description := none, amount := 30, date := 0,
        category := 0 } = 30 ∧
    renderedAmount 2
      { id := 0, accountId := 1, affectedAccountId := none,
        type := Ty.income, description := none, amount := 30, date := 0,
        category := 0 } = 30 ∧
    renderedAmount 2
      { id := 0, accountId := 1, affectedAccountId := none,
        type := Ty.expense, description := none, amount := 30, date := 0,
        category := 0 } = -30 ∧
    renderedAmount 2
      { id := 0, accountId := 1, affectedAccountId := some 2,
        type := Ty.transfer, description := none, amount := 30, date := 0,
        category := 0 } = 30 ∧
    renderedAmount 2
      { id := 0, accountId := 1, affectedAccountId := none,
        type := Ty.transfer, description := none, amount := 30, date := 0,
        category := 0 } = -30 ∧
    renderedAmount 2
      { id := 0, accountId := 1, affectedAccountId := some 3,
        type := Ty.transfer, description := none, amount := 30, date := 0,
        category := 0 } = -30 :=
  c6_sign_convention_by_site 0 1 none none 30 0 0 2

/-- Witness for C5 on the two-entry store queried for account 1 over the
inclusive date range 0..200. -/
theorem c5_entries_membership_and_order_witness :
    (∀ e, e ∈ Entries storeTwoEntries 1 { startDate := 0, endDate := 200 } ↔
      e ∈ storeTwoEntries.entries ∧
        (e.accountId = 1 ∨ e.affectedAccountId = some 1) ∧
        (0 : Int) ≤ e.date ∧ e.date ≤ 200) ∧
    List.Pairwise
      (fun a b => b.date < a.date ∨ (a.date = b.date ∧ b.id ≤ a.id))
      (Entries storeTwoEntries 1 { startDate := 0, endDate := 200 }) :=
  c5_entries_membership_and_order storeTwoEntries 1
    { startDate := 0, endDate := 200 }

end Duit
